import Mathlib

/-!
Verification of the r-sysdeps command-line tool (src/main.rs).

The tool resolves, for a Linux host, the binary or source repository URL
(and the system libraries) recommended by an RStudio Package Manager
server.  All network fetches and file reads are modelled by passing their
results as parameters; the pure decision logic of `main`, `detect_os` and
the URL/rendering code is embedded directly.

String primitives used by the Rust code (str::starts_with, str::split,
str::replace) are modelled over the character list of a string so that
they evaluate by kernel reduction.
-/

namespace RSysdeps

/-- Model of Rust char-sequence prefix test: does the first list begin
with the second? -/
def charsStartWith : List Char → List Char → Bool
  | _, [] => true
  | [], _ :: _ => false
  | c :: cs, d :: ds => c == d && charsStartWith cs ds

/-- Model of Rust str::starts_with: does s begin with p? -/
def rustStartsWith (s p : String) : Bool :=
  charsStartWith s.data p.data

/-- Model of Rust str::split on a one-character separator, over char
lists: "a=b=c" gives ["a","b","c"], "" gives [""]. -/
def splitChars (sep : Char) : List Char → List (List Char)
  | [] => [[]]
  | c :: cs =>
    if c == sep then [] :: splitChars sep cs
    else
      match splitChars sep cs with
      | [] => [[c]]
      | r :: rs => (c :: r) :: rs

/-- Model of Rust line.split("=").collect() as used in detect_os. -/
def rustSplitEq (s : String) : List String :=
  (splitChars '=' s.data).map String.mk

/-- Model of Rust s.replace("\"", ""): every double-quote character is
removed (the pattern is a single character and the replacement empty). -/
def removeQuotes (s : String) : String :=
  String.mk (s.data.filter (fun c => !(c == '\"')))

/-- APIDistribution from src/main.rs lines 70-82. -/
structure APIDistribution where
  binary_display : String
  binary_url : String
  display : String
  distribution : String
  release : String
  sys_reqs : Bool
  binaries : Bool
  deriving DecidableEq

/-- APIBioConductorVersion from src/main.rs lines 84-89. -/
structure APIBioConductorVersion where
  bioc_version : String
  r_version : String
  cran_snapshot : String
  deriving DecidableEq

/-- APIStatusResponse from src/main.rs lines 59-68. -/
structure APIStatusResponse where
  version : String
  build_date : String
  r_configured : Bool
  binaries_enabled : Bool
  distros : List APIDistribution
  cran_repo : String
  bioc_versions : List APIBioConductorVersion
  deriving DecidableEq

/-- APIRepository from src/main.rs lines 91-98 (u64 id modelled as Nat;
no arithmetic is performed on it). -/
structure APIRepository where
  id : Nat
  name : String
  description : Option String
  language : String
  deriving DecidableEq

/-- APIPrePost from src/main.rs lines 119-123. -/
structure APIPrePost where
  command : String
  script : String
  deriving DecidableEq

/-- APIPackageRequirements from src/main.rs lines 111-117. -/
structure APIPackageRequirements where
  packages : List String
  pre_install : Option (List APIPrePost)
  install_scripts : List String
  post_install : Option (List APIPrePost)
  deriving DecidableEq

/-- APIRequirement from src/main.rs lines 105-109. -/
structure APIRequirement where
  name : String
  requirements : APIPackageRequirements
  deriving DecidableEq

/-- APISysReqs from src/main.rs lines 100-103. -/
structure APISysReqs where
  requirements : List APIRequirement
  deriving DecidableEq

/-- The Action subcommand from src/main.rs lines 7-33. -/
inductive Action where
  | package (packages : List String)
  | repository (list binary_repository source_repository : Bool)
  deriving DecidableEq

/-- The terminal errors the program can produce (anyhow! / bail! call
sites in src/main.rs), with their payloads. -/
inductive RError where
  | ioError
  | detectionError
  | repositoryNotFound (name : String)
  | unsupportedOs (distribution release : String)
  | binariesDisabledServer
  | binariesDisabledOs (distribution release : String)
  | sysreqsFetchFailed
  deriving DecidableEq

/-- The user-visible message of each error, following the format strings
in src/main.rs. -/
def RError.message : RError → String
  | .ioError => "failed to read /etc/os-release"
  | .detectionError => "failed to detect linux distribution and/or version"
  | .repositoryNotFound name =>
      "Specified repository \x27" ++ name ++ "\x27 does not exist on the server"
  | .unsupportedOs distribution release =>
      "server does not support OS " ++ distribution ++ "-" ++ release
  | .binariesDisabledServer => "binary repositories not enabled on server"
  | .binariesDisabledOs distribution release =>
      "binary repositories not enabled for " ++ distribution ++ "-" ++ release
  | .sysreqsFetchFailed => "failed to do get system requirements"

/-- The os_rename table built in detect_os (src/main.rs lines 302-303).
It is populated with the single pair ("rhel", "redhat") and then never
read anywhere in the program. -/
def os_rename : List (String × String) := [("rhel", "redhat")]

/-- One line of the OS metadata file, parsed as in src/main.rs lines
311-320: split on "=", keep only lines yielding exactly two parts, and
remove every double quote from both parts. -/
def parseLine (line : String) : Option (String × String) :=
  match rustSplitEq line with
  | [k, v] => some (removeQuotes k, removeQuotes v)
  | _ => none

/-- The os_attributes mapping of detect_os: well-formed lines in file
order (a HashMap whose inserts overwrite; lookup takes the last
insertion for a key). -/
def buildAttributes (lines : List String) : List (String × String) :=
  lines.filterMap parseLine

/-- HashMap-style lookup in the association list: the value of the last
inserted pair with the given key, as HashMap::insert overwrites. -/
def lookupAttr (m : List (String × String)) (k : String) : Option String :=
  ((m.filter (fun kv => kv.1 == k)).getLast?).map (fun kv => kv.2)

/-- detect_os from src/main.rs lines 296-326.  The contents of
/etc/os-release are passed as the list of its lines (as produced by
Rust str::lines); none models an unreadable file. -/
def detect_os (os_name os_version : Option String)
    (os_release : Option (List String)) : Except RError (String × String) :=
  match os_name, os_version with
  | some name, some version => .ok (name, version)
  | _, _ =>
    match os_release with
    | none => .error .ioError
    | some lines =>
      let os_attributes := buildAttributes lines
      match lookupAttr os_attributes "ID", lookupAttr os_attributes "VERSION_ID" with
      | some name, some version => .ok (name, version)
      | _, _ => .error .detectionError

/-- The distro filter predicate of the binary_repository branch
(src/main.rs line 188): distribution equality and the detected release
starting with the server release. -/
def distroMatches (distro : APIDistribution) (distribution release : String) : Bool :=
  distro.distribution == distribution && rustStartsWith release distro.release

/-- The .iter().filter(..).take(1).next() of src/main.rs lines 184-191:
first distro in server order satisfying the predicate. -/
def selectDistro (distros : List APIDistribution)
    (distribution release : String) : Option APIDistribution :=
  distros.find? (fun distro => distroMatches distro distribution release)

/-- The source repository URL printed by the source_repository branch
(src/main.rs line 182). -/
def sourceUrl (server repository_name : String) : String :=
  server ++ "/" ++ repository_name ++ "/latest"

/-- The binary_repository branch of main (src/main.rs lines 183-211):
resolve the distro (error if none), then check the server-wide
binaries_enabled flag, then the distro binaries flag, then format the
URL. -/
def binaryUrl (server repository_name distribution release : String)
    (rspm_status : APIStatusResponse) : Except RError String :=
  match selectDistro rspm_status.distros distribution release with
  | none => .error (.unsupportedOs distribution release)
  | some distro =>
    if !rspm_status.binaries_enabled then
      .error .binariesDisabledServer
    else if !distro.binaries then
      .error (.binariesDisabledOs distribution release)
    else
      .ok (server ++ "/" ++ repository_name ++ "/__linux__/" ++
           distro.binary_url ++ "/latest")

/-- Repository resolution of src/main.rs lines 131-140: the looked-up
name is the requested one, defaulting to the server status cran_repo;
the first catalog entry with that exact name wins; no entry is an
error naming the looked-up value. -/
def resolveRepository (requested : Option String)
    (repositories : List APIRepository) (cran_repo : String) :
    Except RError APIRepository :=
  let repository_name := requested.getD cran_repo
  match repositories.find? (fun repo => repo.name == repository_name) with
  | none => .error (.repositoryNotFound repository_name)
  | some repo => .ok repo

/-- The script bodies printed for a pre_install or post_install list
(src/main.rs lines 160 and 167). -/
def printPrePost (ps : List APIPrePost) : List String :=
  ps.map (fun p => p.script)

/-- The lines printed for one requirement (src/main.rs lines 153-169),
accumulated in the order of the println! calls, including the trailing
empty line. -/
def renderRequirement (req : APIRequirement) : List String :=
  let out₁ := ["# R package: " ++ req.name]
  let out₂ := out₁ ++
    ["## System libraries: " ++ String.intercalate ", " req.requirements.packages]
  let out₃ :=
    match req.requirements.pre_install with
    | some pre => out₂ ++ printPrePost pre
    | none => out₂
  let out₄ := out₃ ++ req.requirements.install_scripts
  let out₅ :=
    match req.requirements.post_install with
    | some post => out₄ ++ printPrePost post
    | none => out₄
  out₅ ++ [""]

/-- All lines printed by the Package branch for a response. -/
def renderSysreqs (response : APISysReqs) : List String :=
  (response.requirements.map renderRequirement).flatten

/-- The pure decision logic of main (src/main.rs lines 125-217) after
the two metadata fetches: OS identity and fetched data are parameters,
the sysreqs fetch is a function of the resolved repository id, and the
value is the list of printed lines or the terminal error. -/
def runMain (distribution release server : String)
    (repositoryOpt : Option String) (action : Action)
    (rspm_status : APIStatusResponse) (repositories : List APIRepository)
    (sysreqsFor : Nat → Except RError APISysReqs) :
    Except RError (List String) :=
  match resolveRepository repositoryOpt repositories rspm_status.cran_repo with
  | .error e => .error e
  | .ok repository =>
    let repository_name := repositoryOpt.getD rspm_status.cran_repo
    match action with
    | .package _packages =>
      match sysreqsFor repository.id with
      | .error e => .error e
      | .ok response => .ok (renderSysreqs response)
    | .repository list binary_repository source_repository =>
      if list then
        .ok (repositories.map (fun repo => repo.name))
      else if source_repository then
        .ok [sourceUrl server repository_name]
      else if binary_repository then
        match binaryUrl server repository_name distribution release rspm_status with
        | .error e => .error e
        | .ok u => .ok [u]
      else
        .ok []

/-- Following the words of the spec for claim C4: strip a surrounding
pair of double quotes from a value, leaving interior quotes in place. -/
def stripSurroundingQuotes (s : String) : String :=
  if 2 ≤ s.data.length ∧ s.data.head? = some '\"' ∧ s.data.getLast? = some '\"' then
    String.mk (s.data.drop 1 |>.dropLast)
  else s

/-- Following the words of the spec for claim C4: parse one metadata
line keeping keys verbatim and stripping only surrounding quotes from
the value. -/
def parseLineSpec (line : String) : Option (String × String) :=
  match rustSplitEq line with
  | [k, v] => some (k, stripSurroundingQuotes v)
  | _ => none

/-- The attribute mapping claim C4 describes, built with parseLineSpec. -/
def buildAttributesSpec (lines : List String) : List (String × String) :=
  lines.filterMap parseLineSpec

end RSysdeps

namespace RSysdeps

/-- Helper: find? returns the head of the matching tail when everything
before it fails the predicate. -/
theorem find?_append_first {α} (p : α → Bool) (l₁ l₂ : List α) (a : α)
    (h₁ : ∀ x ∈ l₁, p x = false) (h₂ : p a = true) :
    List.find? p (l₁ ++ a :: l₂) = some a := by
  induction l₁ with
  | nil => simp [List.find?, h₂]
  | cons b bs ih =>
    have hb : p b = false := h₁ b (by simp)
    have := ih (fun x hx => h₁ x (by simp [hx]))
    simpa [List.find?, hb] using this

/-- C1: a server distro matches the detected OS identity iff its
distribution string equals the detected distribution and the detected
release starts with the distro release (that direction only); among
several matches the first in server order of status.distros is
selected, and no match yields none. -/
theorem c1_distro_matching :
    (∀ (d : APIDistribution) (dist rel : String),
        distroMatches d dist rel = true ↔
          (d.distribution = dist ∧ rustStartsWith rel d.release = true)) ∧
    (∀ (ds₁ ds₂ : List APIDistribution) (d : APIDistribution) (dist rel : String),
        (∀ d' ∈ ds₁, distroMatches d' dist rel = false) →
        distroMatches d dist rel = true →
        selectDistro (ds₁ ++ d :: ds₂) dist rel = some d) ∧
    (∀ (ds : List APIDistribution) (dist rel : String),
        (∀ d ∈ ds, distroMatches d dist rel = false) →
        selectDistro ds dist rel = none) := by
  refine ⟨?_, ?_, ?_⟩
  · intro d dist rel
    simp [distroMatches, Bool.and_eq_true, beq_iff_eq]
  · intro ds₁ ds₂ d dist rel h₁ h₂
    exact find?_append_first _ ds₁ ds₂ d h₁ h₂
  · intro ds dist rel h
    exact List.find?_eq_none.mpr (fun x hx => by simp [h x hx])

/-- C1 witness: release "20" matches detected "20.04" but not "2.04";
with two matching distros the first in order is selected. -/
theorem c1_distro_matching_witness :
    distroMatches ⟨"U", "focal", "U", "ubuntu", "20", true, true⟩ "ubuntu" "20.04" = true ∧
    distroMatches ⟨"U", "focal", "U", "ubuntu", "20", true, true⟩ "ubuntu" "2.04" = false ∧
    selectDistro [⟨"U", "first", "U", "ubuntu", "20", true, true⟩,
                  ⟨"U", "second", "U", "ubuntu", "20.04", true, true⟩] "ubuntu" "20.04"
      = some ⟨"U", "first", "U", "ubuntu", "20", true, true⟩ :=
  ⟨(c1_distro_matching.1 ⟨"U", "focal", "U", "ubuntu", "20", true, true⟩
      "ubuntu" "20.04").mpr ⟨rfl, rfl⟩,
   by rfl,
   c1_distro_matching.2.1 [] [⟨"U", "second", "U", "ubuntu", "20.04", true, true⟩]
     ⟨"U", "first", "U", "ubuntu", "20", true, true⟩ "ubuntu" "20.04"
     (by simp) (by rfl)⟩

/-- C2: binaryUrl fails with the unsupported-OS error when no distro
matches; otherwise fails with the server-wide binaries-disabled error
when binaries_enabled is false; otherwise fails with the OS-specific
binaries-disabled error when the matched distro has binaries = false;
otherwise returns server/repo/__linux__/binary_url/latest. -/
theorem c2_binary_url_branching :
    ∀ (server repo dist rel : String) (st : APIStatusResponse),
      (selectDistro st.distros dist rel = none →
        binaryUrl server repo dist rel st = .error (.unsupportedOs dist rel)) ∧
      (∀ d : APIDistribution, selectDistro st.distros dist rel = some d →
        st.binaries_enabled = false →
        binaryUrl server repo dist rel st = .error .binariesDisabledServer) ∧
      (∀ d : APIDistribution, selectDistro st.distros dist rel = some d →
        st.binaries_enabled = true → d.binaries = false →
        binaryUrl server repo dist rel st = .error (.binariesDisabledOs dist rel)) ∧
      (∀ d : APIDistribution, selectDistro st.distros dist rel = some d →
        st.binaries_enabled = true → d.binaries = true →
        binaryUrl server repo dist rel st =
          .ok (server ++ "/" ++ repo ++ "/__linux__/" ++ d.binary_url ++ "/latest")) := by
  intro server repo dist rel st
  refine ⟨?_, ?_, ?_, ?_⟩ <;> intros <;> simp_all [binaryUrl]

/-- C2 witness: the round-trip fixture of the spec resolves to
https://SERVER/cran/__linux__/focal/latest. -/
theorem c2_binary_url_branching_witness :
    binaryUrl "https://SERVER" "cran" "ubuntu" "20.04"
      ⟨"v", "d", true, true,
        [⟨"Ubuntu", "focal", "Ubuntu", "ubuntu", "20.04", true, true⟩], "cran", []⟩
      = .ok "https://SERVER/cran/__linux__/focal/latest" := by
  simpa using
    (c2_binary_url_branching "https://SERVER" "cran" "ubuntu" "20.04"
      ⟨"v", "d", true, true,
        [⟨"Ubuntu", "focal", "Ubuntu", "ubuntu", "20.04", true, true⟩], "cran", []⟩).2.2.2
      ⟨"Ubuntu", "focal", "Ubuntu", "ubuntu", "20.04", true, true⟩ (by rfl) rfl rfl

/-- C3: the looked-up name is the requested one, or the server default
when no name is requested, resolved by the same rule; the first catalog
entry whose name is exactly equal wins; no entry yields the
repository-not-found error naming the looked-up value, and that error
is the result of the whole run for every action and every sysreqs
outcome. -/
theorem c3_repository_resolution :
    (∀ (requested : Option String) (cs₁ cs₂ : List APIRepository)
        (r : APIRepository) (d : String),
        (∀ r' ∈ cs₁, (r'.name == requested.getD d) = false) →
        (r.name == requested.getD d) = true →
        resolveRepository requested (cs₁ ++ r :: cs₂) d = .ok r) ∧
    (∀ (requested : Option String) (catalog : List APIRepository) (d : String),
        (∀ r ∈ catalog, (r.name == requested.getD d) = false) →
        resolveRepository requested catalog d =
          .error (.repositoryNotFound (requested.getD d))) ∧
    (∀ (n d : String) (catalog : List APIRepository),
        resolveRepository (some n) catalog d = resolveRepository none catalog n) ∧
    (∀ (dist rel server : String) (requested : Option String) (action : Action)
        (st : APIStatusResponse) (catalog : List APIRepository)
        (sys : Nat → Except RError APISysReqs) (e : RError),
        resolveRepository requested catalog st.cran_repo = .error e →
        runMain dist rel server requested action st catalog sys = .error e) := by
  refine ⟨?_, ?_, ?_, ?_⟩
  · intro requested cs₁ cs₂ r d h₁ h₂
    simp [resolveRepository, find?_append_first _ cs₁ cs₂ r h₁ h₂]
  · intro requested catalog d h
    have hn : List.find? (fun repo => repo.name == requested.getD d) catalog = none :=
      List.find?_eq_none.mpr (fun x hx => by simp [h x hx])
    simp [resolveRepository, hn]
  · intro n d catalog
    rfl
  · intro dist rel server requested action st catalog sys e h
    simp [runMain, h]

/-- C3 witness: a catalog holding only "CRAN" does not satisfy a request
for "cran" (case-sensitive lookup) and resolution fails naming the
requested value. -/
theorem c3_repository_resolution_witness :
    resolveRepository (some "cran") [⟨1, "CRAN", none, "R"⟩] "x"
      = .error (.repositoryNotFound "cran") :=
  c3_repository_resolution.2.1 (some "cran") [⟨1, "CRAN", none, "R"⟩] "x" (by decide)

end RSysdeps

namespace RSysdeps

/-- C4 counterexample: the code removes every double quote rather than
stripping only a surrounding pair from values.  On the line ID=a"b the
built map holds "ab" where the claim's surrounding-quote stripping
keeps the interior quote; and on a quoted key "ID" the code still finds
ID and succeeds where the claim's mapping has no ID key at all. -/
theorem c4_counterexample :
    (detect_os none none (some ["ID=a\"b", "VERSION_ID=1"]) = .ok ("ab", "1") ∧
     stripSurroundingQuotes "a\"b" = "a\"b" ∧
     ("ab" : String) ≠ "a\"b") ∧
    (detect_os none none (some ["\"ID\"=centos", "VERSION_ID=7"]) = .ok ("centos", "7") ∧
     lookupAttr (buildAttributesSpec ["\"ID\"=centos", "VERSION_ID=7"]) "ID" = none) :=
  ⟨⟨rfl, rfl, by decide⟩, rfl, rfl⟩

/-- C4 (amended): the metadata file is read as key=value lines, lines
not splitting into exactly two parts on "=" are discarded, every double
quote is removed from both the key and the value, a key-to-value map is
built with later lines overwriting earlier ones; if both ID and
VERSION_ID are present the result is (ID value, VERSION_ID value), and
if either is missing the operation fails with the detection error. -/
theorem c4_os_detection :
    (∀ (line : String) (rest : List String),
        parseLine line = none →
        buildAttributes (line :: rest) = buildAttributes rest) ∧
    (∀ line : String, (rustSplitEq line).length ≠ 2 → parseLine line = none) ∧
    (∀ (line k v : String), rustSplitEq line = [k, v] →
        parseLine line = some (removeQuotes k, removeQuotes v)) ∧
    (∀ (lines : List String) (n v : String),
        lookupAttr (buildAttributes lines) "ID" = some n →
        lookupAttr (buildAttributes lines) "VERSION_ID" = some v →
        detect_os none none (some lines) = .ok (n, v)) ∧
    (∀ lines : List String,
        lookupAttr (buildAttributes lines) "ID" = none ∨
        lookupAttr (buildAttributes lines) "VERSION_ID" = none →
        detect_os none none (some lines) = .error .detectionError) := by
  refine ⟨?_, ?_, ?_, ?_, ?_⟩
  · intro line rest h
    simp [buildAttributes, List.filterMap_cons, h]
  · intro line h
    unfold parseLine
    rcases hs : rustSplitEq line with _ | ⟨a, _ | ⟨b, _ | ⟨c, t⟩⟩⟩ <;>
      first
        | rfl
        | exact absurd (by rw [hs]; rfl) h
  · intro line k v h
    simp [parseLine, h]
  · intro lines n v h₁ h₂
    simp [detect_os, h₁, h₂]
  · intro lines h
    rcases h with h | h
    · simp [detect_os, h]
    · cases hid : lookupAttr (buildAttributes lines) "ID" <;> simp [detect_os, hid, h]

/-- C4 witness: on a typical os-release fixture detection returns the
unquoted ID and VERSION_ID values. -/
theorem c4_os_detection_witness :
    detect_os none none
      (some ["NAME=\"Ubuntu\"", "ID=ubuntu", "VERSION_ID=\"20.04\""])
      = .ok ("ubuntu", "20.04") :=
  c4_os_detection.2.2.2.1 ["NAME=\"Ubuntu\"", "ID=ubuntu", "VERSION_ID=\"20.04\""]
    "ubuntu" "20.04" rfl rfl

/-- C5: sourceUrl is pure string formatting, server/repo/latest, and
the source_repository branch of the run prints exactly that URL for
the resolved repository name, for every OS identity, server status and
sysreqs outcome. -/
theorem c5_source_url :
    (∀ server repo : String, sourceUrl server repo = server ++ "/" ++ repo ++ "/latest") ∧
    (∀ (dist rel server : String) (requested : Option String)
        (st : APIStatusResponse) (catalog : List APIRepository)
        (sys : Nat → Except RError APISysReqs) (r : APIRepository),
        resolveRepository requested catalog st.cran_repo = .ok r →
        runMain dist rel server requested (.repository false false true) st catalog sys
          = .ok [sourceUrl server (requested.getD st.cran_repo)]) := by
  refine ⟨fun _ _ => rfl, ?_⟩
  intro dist rel server requested st catalog sys r h
  simp [runMain, h]

/-- C5 witness: a concrete run prints s/cran/latest regardless of the
(unsupported) OS identity and the status flags. -/
theorem c5_source_url_witness :
    runMain "noOs" "0" "s" (some "cran") (.repository false false true)
      ⟨"v", "d", false, false, [], "x", []⟩ [⟨3, "cran", none, "R"⟩]
      (fun _ => .error .sysreqsFetchFailed)
      = .ok ["s/cran/latest"] := by
  simpa using c5_source_url.2 "noOs" "0" "s" (some "cran")
    ⟨"v", "d", false, false, [], "x", []⟩ [⟨3, "cran", none, "R"⟩]
    (fun _ => .error .sysreqsFetchFailed) ⟨3, "cran", none, "R"⟩ (by rfl)

/-- C6: for every requirement the printed lines are the package-name
line, the joined system-libraries line, the pre-install script bodies
in list order, the install scripts in list order, the post-install
script bodies in list order, then the trailing blank line; an absent
pre- or post-install list contributes nothing rather than failing. -/
theorem c6_render_order :
    ∀ req : APIRequirement,
      renderRequirement req =
        ("# R package: " ++ req.name) ::
        ("## System libraries: " ++ String.intercalate ", " req.requirements.packages) ::
        (printPrePost (req.requirements.pre_install.getD []) ++
         req.requirements.install_scripts ++
         printPrePost (req.requirements.post_install.getD []) ++ [""]) := by
  intro req
  rcases req with ⟨name, pkgs, pre, inst, post⟩
  cases pre <;> cases post <;> simp [renderRequirement, printPrePost]

end RSysdeps

namespace RSysdeps

/-- C7: with both overrides supplied, detection returns exactly that
pair verbatim, independent of the metadata file (readable, unreadable
or arbitrary content). -/
theorem c7_override_verbatim :
    ∀ (name version : String) (os_release : Option (List String)),
      detect_os (some name) (some version) os_release = .ok (name, version) :=
  fun _ _ _ => rfl

/-- C8: a successful detection returns the ID and VERSION_ID values of
the attribute map verbatim; the rename table contains the rhel-to-redhat
pair, yet a host with ID=rhel resolves to distribution "rhel", not
"redhat". -/
theorem c8_no_rename :
    (∀ (lines : List String) (n v : String),
        detect_os none none (some lines) = .ok (n, v) →
        lookupAttr (buildAttributes lines) "ID" = some n ∧
        lookupAttr (buildAttributes lines) "VERSION_ID" = some v) ∧
    (("rhel", "redhat") ∈ os_rename ∧
     detect_os none none (some ["ID=rhel", "VERSION_ID=8.6"]) = .ok ("rhel", "8.6") ∧
     ("rhel" : String) ≠ "redhat") := by
  refine ⟨?_, by decide, rfl, by decide⟩
  intro lines n v h
  cases hid : lookupAttr (buildAttributes lines) "ID" <;>
    cases hvid : lookupAttr (buildAttributes lines) "VERSION_ID" <;>
      simp_all [detect_os]

/-- C8 witness: the general verbatim-lookup property applied to the
ID=rhel fixture. -/
theorem c8_no_rename_witness :
    lookupAttr (buildAttributes ["ID=rhel", "VERSION_ID=8.6"]) "ID" = some "rhel" ∧
    lookupAttr (buildAttributes ["ID=rhel", "VERSION_ID=8.6"]) "VERSION_ID" = some "8.6" :=
  c8_no_rename.1 ["ID=rhel", "VERSION_ID=8.6"] "rhel" "8.6" rfl

/-- C9: when the looked-up repository name has no catalog entry, the
run fails with the repository-not-found error for every action,
including the pure listing; when resolution succeeds the listing prints
the catalog names, never consulting the resolved repository. -/
theorem c9_resolution_before_dispatch :
    ∀ (dist rel server : String) (requested : Option String)
      (st : APIStatusResponse) (catalog : List APIRepository)
      (sys : Nat → Except RError APISysReqs),
      (List.find? (fun repo => repo.name == requested.getD st.cran_repo) catalog
          = none →
        ∀ action : Action,
          runMain dist rel server requested action st catalog sys
            = .error (.repositoryNotFound (requested.getD st.cran_repo))) ∧
      (∀ r : APIRepository,
        resolveRepository requested catalog st.cran_repo = .ok r →
        runMain dist rel server requested (.repository true false false) st catalog sys
          = .ok (catalog.map (fun repo => repo.name))) := by
  intro dist rel server requested st catalog sys
  constructor
  · intro h action
    simp [runMain, resolveRepository, h]
  · intro r h
    simp [runMain, h]

/-- C9 witness: with the requested name absent from the catalog even
the list action fails instead of printing the catalog. -/
theorem c9_resolution_before_dispatch_witness :
    runMain "ubuntu" "20.04" "s" (some "cran") (.repository true false false)
      ⟨"v", "d", true, true, [], "x", []⟩ [⟨1, "CRAN", none, "R"⟩]
      (fun _ => .error .sysreqsFetchFailed)
      = .error (.repositoryNotFound "cran") :=
  (c9_resolution_before_dispatch "ubuntu" "20.04" "s" (some "cran")
      ⟨"v", "d", true, true, [], "x", []⟩ [⟨1, "CRAN", none, "R"⟩]
      (fun _ => .error .sysreqsFetchFailed)).1 (by rfl)
    (.repository true false false)

/-- C10: with exactly one override supplied, detection behaves exactly
as with no override at all: the supplied value is ignored and both
fields come from the metadata file, errors included. -/
theorem c10_single_override_ignored :
    ∀ (value : String) (os_release : Option (List String)),
      detect_os (some value) none os_release = detect_os none none os_release ∧
      detect_os none (some value) os_release = detect_os none none os_release :=
  fun _ _ => ⟨rfl, rfl⟩

end RSysdeps
